import Mathlib

/-!
# Verification of the CSRF token lifecycle manager

Shallow embedding of `src/main.rs` of RustCSRFTutorial: an in-memory
session store mapping CSRF tokens to their last-activity `Instant`,
with issuance (`get_csrf_token`), validation with sliding expiry
(`check_csrf_token`) and a periodic background sweep
(`cleanup_sessions`, one cycle embedded as `cleanup_sessions_cycle`).

Modelling choices:
* `Instant` values are natural numbers (the Rust `Instant` is monotone);
  `Duration`s are naturals as well, in seconds.
  `a.duration_since b` becomes truncated subtraction `a - b`.
* The `HashMap<String, Instant>` store is an association list with
  unique keys; `insert` replaces the value when the key is present and
  appends an entry otherwise, exactly as `HashMap::insert`.
* The random token produced by `generate_csrf_token` is passed to
  `get_csrf_token` as an explicit argument (the embedding of
  `rand::thread_rng().gen::<u64>().to_string()`), since the embedding
  is deterministic.
* `check_csrf_token` reads `Instant::now()` twice: once as the default
  initialisation of `last_activity` and once as `current_time`.  The
  embedding `check_csrf_token_aux` keeps the two instants as separate
  arguments `dflt` and `now`; `check_csrf_token` identifies them, as in
  a sequential run where no time passes between the two reads.
* The HTTP results are embedded as `Except (Nat × String) Nat`:
  `Except.ok 200` for `Ok(StatusCode::OK)` and
  `Except.error (status, message)` for `Err((status, message))`.
-/

namespace Csrf

/-- `const SECONDS_TIMEOUT: u64 = 30;` -/
def SECONDS_TIMEOUT : Nat := 30

/-- `const SESSION_TIMEOUT: Duration = Duration::new(SECONDS_TIMEOUT, 0);`
(in seconds). -/
def SESSION_TIMEOUT : Nat := SECONDS_TIMEOUT

/-- `Instant::duration_since`: elapsed time from `earlier` to `now`
(truncated at zero, the instants being monotone). -/
def durationSince (now earlier : Nat) : Nat := now - earlier

/-- The session store `HashMap<String, Instant>`, embedded as an
association list of (token, last-activity instant) pairs. -/
abbrev Store := List (String × Nat)

namespace Store

/-- `HashMap::get`: the value stored at `key`, if any. -/
def get? : Store → String → Option Nat
  | [], _ => none
  | (k, v) :: rest, key => if k = key then some v else get? rest key

/-- `HashMap::contains_key`. -/
def containsKey (s : Store) (key : String) : Bool := (s.get? key).isSome

/-- `HashMap::insert`: replace the value when the key is present,
add an entry otherwise. -/
def insert : Store → String → Nat → Store
  | [], key, val => [(key, val)]
  | (k, v) :: rest, key, val =>
    if k = key then (key, val) :: rest else (k, v) :: insert rest key val

end Store

/-- `get_csrf_token`: insert the freshly generated token with the
current instant as its last-activity timestamp, and return the token
in the response body.  The generated token is the argument `token`. -/
def get_csrf_token (store : Store) (token : String) (now : Nat) :
    Store × String :=
  (store.insert token now, token)

/-- `check_csrf_token`, with the default initialisation of
`last_activity` (`Instant::now()` at line 117 of the source) kept as a
separate argument `dflt` from `current_time = now`.  Mirrors the
source: extract the header (missing becomes `""`), check
`contains_key`, re-lookup for `last_activity` falling back to `dflt`,
compare the elapsed time against `SESSION_TIMEOUT`, and on success
re-insert the token with `current_time`. -/
def check_csrf_token_aux (store : Store) (header : Option String)
    (dflt now : Nat) : Except (Nat × String) Nat × Store :=
  let request_token_val : String := header.getD ""
  let is_stored_token : Bool := store.containsKey request_token_val
  if is_stored_token = false then
    (Except.error (403, "Invalid CSRF token"), store)
  else
    let last_activity : Nat :=
      match store.get? request_token_val with
      | some start_time => start_time
      | none => dflt
    let current_time : Nat := now
    if SESSION_TIMEOUT < durationSince current_time last_activity then
      (Except.error (401, "Session expired"), store)
    else
      (Except.ok 200, store.insert request_token_val current_time)

/-- `check_csrf_token` in a sequential run: both reads of
`Instant::now()` yield the same instant `now`. -/
def check_csrf_token (store : Store) (header : Option String)
    (now : Nat) : Except (Nat × String) Nat × Store :=
  check_csrf_token_aux store header now now

/-- One cycle of `cleanup_sessions`:
`sessions.retain(|_, last_activity| now.duration_since(last_activity) < SESSION_TIMEOUT)`. -/
def cleanup_sessions_cycle (store : Store) (now : Nat) : Store :=
  store.filter (fun kv => durationSince now kv.2 < SESSION_TIMEOUT)

/-- The store invariant: every recorded last-activity timestamp is no
later than the current instant. -/
def timestampsLE (s : Store) (t : Nat) : Prop := ∀ kv ∈ s, kv.2 ≤ t

/-! ## Basic lemmas about the store -/

namespace Store

theorem get?_insert_self (s : Store) (k : String) (v : Nat) :
    (s.insert k v).get? k = some v := by
  induction s with
  | nil => simp [insert, get?]
  | cons hd tl ih =>
    by_cases h : hd.1 = k
    · simp [insert, h, get?]
    · simp [insert, h, get?, ih]

theorem get?_insert_ne (s : Store) (k k' : String) (v : Nat)
    (h : k ≠ k') : (s.insert k v).get? k' = s.get? k' := by
  induction s with
  | nil => simp [insert, get?, h]
  | cons hd tl ih =>
    by_cases hk : hd.1 = k
    · simp [insert, hk, get?, h]
    · by_cases hk' : hd.1 = k'
      · simp [insert, hk, get?, hk', Ne.symm h]
      · simp [insert, hk, get?, hk', ih]

theorem length_insert_of_not_contains (s : Store) (k : String) (v : Nat)
    (h : s.containsKey k = false) :
    (s.insert k v).length = s.length + 1 := by
  induction s with
  | nil => simp [insert]
  | cons hd tl ih =>
    simp only [containsKey, get?] at h
    by_cases hk : hd.1 = k
    · simp [hk] at h
    · simp only [insert, hk, if_false, List.length_cons]
      rw [ih]
      simp only [containsKey]
      simpa [hk] using h

theorem mem_insert (s : Store) (k : String) (v : Nat) (kv : String × Nat)
    (h : kv ∈ s.insert k v) : kv ∈ s ∨ kv = (k, v) := by
  induction s with
  | nil => simpa [insert] using h
  | cons hd tl ih =>
    by_cases hk : hd.1 = k
    · simp only [insert, hk, if_true, List.mem_cons] at h
      rcases h with h | h
      · right; exact h
      · left; exact List.mem_cons_of_mem _ h
    · simp only [insert, hk, if_false, List.mem_cons] at h
      rcases h with h | h
      · left; simp [h]
      · rcases ih h with h' | h'
        · left; exact List.mem_cons_of_mem _ h'
        · right; exact h'

theorem get?_mem (s : Store) (k : String) (v : Nat)
    (h : s.get? k = some v) : (k, v) ∈ s := by
  induction s with
  | nil => simp [get?] at h
  | cons hd tl ih =>
    by_cases hk : hd.1 = k
    · simp only [get?, hk, if_true, Option.some.injEq] at h
      have hhd : hd = (k, v) := by
        obtain ⟨a, b⟩ := hd
        simp only [Prod.mk.injEq]
        exact ⟨hk, h⟩
      rw [hhd]
      exact List.mem_cons_self _ _
    · simp only [get?, hk, if_false] at h
      exact List.mem_cons_of_mem _ (ih h)

end Store

/-- The store `check_csrf_token` leaves behind is either the input
store (on both failure paths) or the input store with the presented
token re-inserted at the current instant (on success). -/
theorem check_store_eq_or_insert (s : Store) (hdr : Option String) (now : Nat) :
    (check_csrf_token s hdr now).2 = s ∨
    (check_csrf_token s hdr now).2 = s.insert (hdr.getD "") now := by
  by_cases hc : s.containsKey (hdr.getD "") = false
  · left
    simp [check_csrf_token, check_csrf_token_aux, hc]
  · have hc' : s.containsKey (hdr.getD "") = true := by simpa using hc
    obtain ⟨T, hT⟩ :=
      Option.isSome_iff_exists.mp (by simpa [Store.containsKey] using hc')
    by_cases hexp : SESSION_TIMEOUT < durationSince now T
    · left
      simp [check_csrf_token, check_csrf_token_aux, hc', hT, hexp]
    · right
      simp [check_csrf_token, check_csrf_token_aux, hc', hT, hexp]

end Csrf

/-! ## Claims -/

namespace Csrf

/-- C1 counterexample: the claim asserts that a token last active at
`T = 0` with no successful validation since must fail validation at
any time `≥ T + 30` seconds.  But at exactly `now = 30` (elapsed time
equal to the window) the source's strict comparison
`duration_since > SESSION_TIMEOUT` is false and validation succeeds. -/
theorem C1_counterexample :
    (30 : Nat) ≥ 0 + SESSION_TIMEOUT ∧
    (check_csrf_token [("t", 0)] (some "t") 30).1 = Except.ok 200 :=
  ⟨by decide, rfl⟩

/-- C1 (amended): for a token whose recorded last-activity timestamp is
`T`, a validation at any time strictly later than `T + 30` seconds
fails — `SessionExpired` (401) if the record is still in the store,
`InvalidToken` (403) if it has been swept — and never succeeds. -/
theorem C1_expired_never_validates (s : Store) (tok : String) (T now : Nat)
    (hlate : T + SESSION_TIMEOUT < now) :
    (s.get? tok = some T →
      (check_csrf_token s (some tok) now).1 = Except.error (401, "Session expired")) ∧
    (s.get? tok = none →
      (check_csrf_token s (some tok) now).1 = Except.error (403, "Invalid CSRF token")) := by
  constructor
  · intro hmem
    have hlt : SESSION_TIMEOUT < now - T := by
      refine Nat.lt_sub_of_add_lt ?_
      omega
    simp [check_csrf_token, check_csrf_token_aux, Store.containsKey, hmem,
      durationSince, hlt]
  · intro habs
    simp [check_csrf_token, check_csrf_token_aux, Store.containsKey, habs]

/-- C1 witness: concrete instance of the amended claim, at `T = 0`,
`now = 31`, both for a still-present and for a swept token. -/
theorem C1_expired_never_validates_witness :
    (check_csrf_token [("t", 0)] (some "t") 31).1 = Except.error (401, "Session expired") :=
  (C1_expired_never_validates [("t", 0)] "t" 0 31 (by decide)).1 rfl

/-- C2: a presented token absent from the store fails with
`InvalidToken` (403 Forbidden, "Invalid CSRF token"), leaving the store
unchanged, and is never reported as `SessionExpired`; the expiry check
is thus only reached for tokens found in the store. -/
theorem C2_absent_is_invalid (s : Store) (hdr : Option String) (now : Nat)
    (habs : s.containsKey (hdr.getD "") = false) :
    check_csrf_token s hdr now = (Except.error (403, "Invalid CSRF token"), s) ∧
    (check_csrf_token s hdr now).1 ≠ Except.error (401, "Session expired") := by
  have h : check_csrf_token s hdr now = (Except.error (403, "Invalid CSRF token"), s) := by
    simp [check_csrf_token, check_csrf_token_aux, habs]
  refine ⟨h, ?_⟩
  rw [h]
  simp

/-- C2 witness: an unknown token against the empty store. -/
theorem C2_absent_is_invalid_witness :
    check_csrf_token [] (some "x") 0 = (Except.error (403, "Invalid CSRF token"), []) ∧
    (check_csrf_token [] (some "x") 0).1 ≠ Except.error (401, "Session expired") :=
  C2_absent_is_invalid [] (some "x") 0 rfl

/-- C3: one sweep cycle keeps exactly the entries whose idle time is
strictly below the 30-second window, with their timestamps unmodified,
and removes exactly the entries idle for at least the window. -/
theorem C3_sweep_exact (s : Store) (now : Nat) (k : String) (T : Nat) :
    ((k, T) ∈ cleanup_sessions_cycle s now ↔
      ((k, T) ∈ s ∧ durationSince now T < SESSION_TIMEOUT)) ∧
    ((k, T) ∈ s → SESSION_TIMEOUT ≤ durationSince now T →
      (k, T) ∉ cleanup_sessions_cycle s now) := by
  constructor
  · simp [cleanup_sessions_cycle, List.mem_filter]
  · intro hmem hidle hcontra
    have := (by simpa [cleanup_sessions_cycle, List.mem_filter] using hcontra : _)
    omega

/-- C4: on every successful validation the presented token's record is
still in the store afterwards and its timestamp equals the current
instant of the call (sliding expiry). -/
theorem C4_success_refreshes (s : Store) (hdr : Option String) (now : Nat)
    (hok : (check_csrf_token s hdr now).1 = Except.ok 200) :
    (check_csrf_token s hdr now).2.get? (hdr.getD "") = some now ∧
    (check_csrf_token s hdr now).2.containsKey (hdr.getD "") = true := by
  by_cases hc : s.containsKey (hdr.getD "") = false
  · simp [check_csrf_token, check_csrf_token_aux, hc] at hok
  · have hc' : s.containsKey (hdr.getD "") = true := by simpa using hc
    obtain ⟨T, hT⟩ :=
      Option.isSome_iff_exists.mp (by simpa [Store.containsKey] using hc')
    by_cases hexp : SESSION_TIMEOUT < durationSince now T
    · simp [check_csrf_token, check_csrf_token_aux, hc', hT, hexp] at hok
    · have hstore : (check_csrf_token s hdr now).2 = s.insert (hdr.getD "") now := by
        simp [check_csrf_token, check_csrf_token_aux, hc', hT, hexp]
      rw [hstore]
      refine ⟨Store.get?_insert_self s _ now, ?_⟩
      simp [Store.containsKey, Store.get?_insert_self]

/-- C4 witness: a token issued at instant 0 and validated at instant 1
ends up recorded at instant 1. -/
theorem C4_success_refreshes_witness :
    (check_csrf_token [("t", 0)] (some "t") 1).2.get? "t" = some 1 ∧
    (check_csrf_token [("t", 0)] (some "t") 1).2.containsKey "t" = true :=
  C4_success_refreshes [("t", 0)] (some "t") 1 rfl

/-- C5: a failed validation (either failure kind) leaves the store
exactly as it was: no record is removed and no timestamp modified. -/
theorem C5_failure_no_mutation (s : Store) (hdr : Option String) (now : Nat)
    (e : Nat × String)
    (herr : (check_csrf_token s hdr now).1 = Except.error e) :
    (check_csrf_token s hdr now).2 = s := by
  by_cases hc : s.containsKey (hdr.getD "") = false
  · simp [check_csrf_token, check_csrf_token_aux, hc]
  · have hc' : s.containsKey (hdr.getD "") = true := by simpa using hc
    obtain ⟨T, hT⟩ :=
      Option.isSome_iff_exists.mp (by simpa [Store.containsKey] using hc')
    by_cases hexp : SESSION_TIMEOUT < durationSince now T
    · simp [check_csrf_token, check_csrf_token_aux, hc', hT, hexp]
    · simp [check_csrf_token, check_csrf_token_aux, hc', hT, hexp] at herr

/-- C5 witness: a rejected unknown token against a one-entry store
leaves the store intact. -/
theorem C5_failure_no_mutation_witness :
    (check_csrf_token [("t", 0)] (some "x") 1).2 = [("t", 0)] :=
  C5_failure_no_mutation [("t", 0)] (some "x") 1
    (403, "Invalid CSRF token") rfl

/-- C6: a token just issued by `get_csrf_token` validates successfully
when presented immediately (zero elapsed time, no sweep in between). -/
theorem C6_immediate_validate_succeeds (s : Store) (tok : String) (now : Nat) :
    (check_csrf_token (get_csrf_token s tok now).1
      (some (get_csrf_token s tok now).2) now).1 = Except.ok 200 := by
  have h := Store.get?_insert_self s tok now
  simp [get_csrf_token, check_csrf_token, check_csrf_token_aux,
    Store.containsKey, h, durationSince]


/-- C7: the store invariant is preserved by every operation — each
operation's writes store the current instant, so all recorded
timestamps stay bounded by the current instant, no operation moves a
token's timestamp backwards, and the sweep only keeps existing entries
unchanged. -/
theorem C7_store_invariant (s : Store) (tok : String) (hdr : Option String)
    (now : Nat) (hb : timestampsLE s now) :
    timestampsLE (get_csrf_token s tok now).1 now ∧
    timestampsLE (check_csrf_token s hdr now).2 now ∧
    timestampsLE (cleanup_sessions_cycle s now) now ∧
    (∀ k T T', s.get? k = some T →
      (get_csrf_token s tok now).1.get? k = some T' → T ≤ T') ∧
    (∀ k T T', s.get? k = some T →
      (check_csrf_token s hdr now).2.get? k = some T' → T ≤ T') ∧
    (∀ k T, (k, T) ∈ cleanup_sessions_cycle s now → (k, T) ∈ s) := by
  have hins : ∀ key : String, timestampsLE (s.insert key now) now := by
    intro key kv hkv
    rcases Store.mem_insert s key now kv hkv with h | h
    · exact hb kv h
    · rw [h]
  have hmono : ∀ (key : String) (k : String) (T T' : Nat),
      s.get? k = some T → (s.insert key now).get? k = some T' → T ≤ T' := by
    intro key k T T' hT hT'
    by_cases hk : key = k
    · subst hk
      rw [Store.get?_insert_self] at hT'
      have hTnow : T ≤ now := hb (key, T) (Store.get?_mem s key T hT)
      have : T' = now := by
        injection hT' with h
        exact h.symm
      omega
    · rw [Store.get?_insert_ne s key k now hk, hT] at hT'
      injection hT' with h
      omega
  have hsweep : ∀ k T, (k, T) ∈ cleanup_sessions_cycle s now → (k, T) ∈ s := by
    intro k T h
    exact (List.mem_filter.mp h).1
  refine ⟨hins tok, ?_, ?_, fun k T T' => hmono tok k T T', ?_, hsweep⟩
  · rcases check_store_eq_or_insert s hdr now with h | h
    · rw [h]; exact hb
    · rw [h]; exact hins _
  · intro kv hkv
    exact hb kv (hsweep kv.1 kv.2 hkv)
  · intro k T T' hT hT'
    rcases check_store_eq_or_insert s hdr now with h | h
    · rw [h, hT] at hT'
      injection hT' with h'
      omega
    · rw [h] at hT'
      exact hmono _ k T T' hT hT'

/-- C7 witness: the invariant theorem instantiated at the empty store
and instant 1. -/
theorem C7_store_invariant_witness :
    timestampsLE (get_csrf_token [] "u" 1).1 1 ∧
    timestampsLE (check_csrf_token [] (some "t") 1).2 1 ∧
    timestampsLE (cleanup_sessions_cycle [] 1) 1 ∧
    (∀ k T T', Store.get? [] k = some T →
      (get_csrf_token [] "u" 1).1.get? k = some T' → T ≤ T') ∧
    (∀ k T T', Store.get? [] k = some T →
      (check_csrf_token [] (some "t") 1).2.get? k = some T' → T ≤ T') ∧
    (∀ k T, (k, T) ∈ cleanup_sessions_cycle [] 1 → (k, T) ∈ ([] : Store)) :=
  C7_store_invariant [] "u" (some "t") 1
    (fun kv hkv => absurd hkv (List.not_mem_nil kv))

/-- C8: a missing header (treated as the empty string) and any
never-issued string both fail through the same path with
`InvalidToken`, never through a distinct missing-credential error. -/
theorem C8_never_issued_invalid (s : Store) (now : Nat) (g : String)
    (hempty : s.containsKey "" = false) (hg : s.containsKey g = false) :
    (check_csrf_token s none now).1 = Except.error (403, "Invalid CSRF token") ∧
    (check_csrf_token s (some g) now).1 = Except.error (403, "Invalid CSRF token") ∧
    check_csrf_token s none now = check_csrf_token s (some "") now := by
  refine ⟨?_, ?_, rfl⟩
  · simp [check_csrf_token, check_csrf_token_aux, hempty]
  · simp [check_csrf_token, check_csrf_token_aux, hg]

/-- C8 witness: the empty header and a garbage token against a
one-entry store. -/
theorem C8_never_issued_invalid_witness :
    (check_csrf_token [("t", 5)] none 100).1 = Except.error (403, "Invalid CSRF token") ∧
    (check_csrf_token [("t", 5)] (some "garbage") 100).1 = Except.error (403, "Invalid CSRF token") ∧
    check_csrf_token [("t", 5)] none 100 = check_csrf_token [("t", 5)] (some "") 100 :=
  C8_never_issued_invalid [("t", 5)] 100 "garbage" rfl rfl

/-- C9 counterexample: the claim asserts that after `Issue()` the store
has exactly one more entry for every prior store state; but when the
freshly generated token string collides with an existing key,
`HashMap::insert` replaces the entry and the store size is unchanged. -/
theorem C9_counterexample :
    ¬ ((get_csrf_token [("5", 0)] "5" 1).1.length =
       ([("5", 0)] : Store).length + 1) := by
  decide

/-- C9 (amended): provided the generated token is not already a key of
the store, after `Issue()` the store has exactly one more entry, the
new entry mapping the token to the current instant, and the token is
returned. -/
theorem C9_issue_adds_fresh_entry (s : Store) (tok : String) (now : Nat)
    (hfresh : s.containsKey tok = false) :
    (get_csrf_token s tok now).1.length = s.length + 1 ∧
    (get_csrf_token s tok now).1.get? tok = some now ∧
    (get_csrf_token s tok now).2 = tok :=
  ⟨Store.length_insert_of_not_contains s tok now hfresh,
   Store.get?_insert_self s tok now, rfl⟩

/-- C9 witness: issuing token `"7"` into the empty store at instant 3. -/
theorem C9_issue_adds_fresh_entry_witness :
    (get_csrf_token [] "7" 3).1.length = ([] : Store).length + 1 ∧
    (get_csrf_token [] "7" 3).1.get? "7" = some 3 ∧
    (get_csrf_token [] "7" 3).2 = "7" :=
  C9_issue_adds_fresh_entry [] "7" 3 rfl

/-- C10: when the presented token is a key of the store, the default
initialisation of `last_activity` is never the value used — the result
of `check_csrf_token_aux` does not depend on the default instant. -/
theorem C10_default_unused (s : Store) (hdr : Option String)
    (d d' now : Nat) (hpres : s.containsKey (hdr.getD "") = true) :
    check_csrf_token_aux s hdr d now = check_csrf_token_aux s hdr d' now := by
  obtain ⟨T, hT⟩ :=
    Option.isSome_iff_exists.mp (by simpa [Store.containsKey] using hpres)
  simp [check_csrf_token_aux, hpres, hT]

/-- C10 witness: two different defaults give the same result for a
stored token. -/
theorem C10_default_unused_witness :
    check_csrf_token_aux [("t", 0)] (some "t") 5 1 =
    check_csrf_token_aux [("t", 0)] (some "t") 9 1 :=
  C10_default_unused [("t", 0)] (some "t") 5 9 1 rfl

end Csrf
